import Mathlib

/-!
# Verification of the qwen3 parsing proxy's tag-aware content transcoder

This file embeds, in Lean, the core of the proxy's content transcoder:

* `StreamProcessor` / `StreamingState` from `app/services/stream_processor.py`
  (tag scanning, tool-call decoding, event emission for the streaming path);
* `OpenAIAPIHandler.build_streaming_generator` and
  `OpenAIAPIHandler.process_non_streaming_response` from
  `app/services/openai_handler.py`;
* the parts of `app/services/content_parser.py` that the code imports
  (`ContentParser.parse_and_clean_content`, `ContentParser._process_arguments`).
  That module's source is not available, so those definitions are modelled
  from the specification and are marked as such in their doc comments.

Strings are embedded as `List Char` (`Str`).  Python's `json` standard
library is modelled by an executable JSON parser/serializer covering `null`,
booleans, integers, strings (with the standard escapes, including
`\uXXXX`), arrays and objects; floating-point literals are outside the
model.  SSE frames are abstracted to the `Event` type: one `Event` per
`data:` frame actually yielded by the Python generators.
-/

abbrev Str := List Char

/-- Shorthand to turn a Lean string literal into the `List Char` embedding. -/
def lit (s : String) : Str := s.toList

/-- Python truthiness of an optional string (`None` and `""` are falsy). -/
def truthyOS (o : Option Str) : Bool :=
  match o with
  | none => false
  | some s => !s.isEmpty

/-- Whitespace set stripped by Python's `str.strip()` (ASCII part). -/
def pyIsSpace (c : Char) : Bool :=
  c = ' ' || c = '\t' || c = '\n' || c = '\x0d' || c = Char.ofNat 11 || c = Char.ofNat 12

/-- Python `str.strip()`: drop leading and trailing whitespace. -/
def pyStrip (s : Str) : Str :=
  ((s.dropWhile pyIsSpace).reverse.dropWhile pyIsSpace).reverse

/-- Index of the leftmost occurrence of `pat` in `s`, if any. -/
def findSub (s pat : Str) : Option Nat :=
  match s with
  | [] => if pat.isEmpty then some 0 else none
  | _ :: t => if pat.isPrefixOf s then some 0 else (findSub t pat).map (· + 1)

/-- Python `s.find(pat, start)`, with `none` standing for `-1`. -/
def pyFind (s pat : Str) (start : Nat) : Option Nat :=
  (findSub (s.drop start) pat).map (· + start)

/-- Python slice `s[a:b]` (for `0 ≤ a ≤ b`). -/
def pySlice (s : Str) (a b : Nat) : Str :=
  (s.drop a).take (b - a)

/-- Join a list of strings with a separator (Python `sep.join`). -/
def joinSep (sep : Str) : List Str → Str
  | [] => []
  | [x] => x
  | x :: y :: t => x ++ sep ++ joinSep sep (y :: t)

/-! ## JSON model (Python `json` standard library) -/

/-- JSON values as produced by `json.loads`.  Numbers are modelled as
integers; floating-point literals are outside the model. -/
inductive Json where
  | null : Json
  | bool (b : Bool) : Json
  | num (n : Int) : Json
  | str (s : Str) : Json
  | arr (xs : List Json) : Json
  | obj (kvs : List (Str × Json)) : Json

/-- JSON structural whitespace. -/
def jsonWs (c : Char) : Bool :=
  c = ' ' || c = '\t' || c = '\n' || c = '\x0d'

def skipWs (s : Str) : Str := s.dropWhile jsonWs

/-- Single-character string escapes accepted by the JSON grammar. -/
def escChar (c : Char) : Option Char :=
  if c = '"' then some '"'
  else if c = '\\' then some '\\'
  else if c = '/' then some '/'
  else if c = 'b' then some (Char.ofNat 8)
  else if c = 'f' then some (Char.ofNat 12)
  else if c = 'n' then some '\n'
  else if c = 'r' then some '\x0d'
  else if c = 't' then some '\t'
  else none

/-- Value of a hexadecimal digit. -/
def hexVal (c : Char) : Option Nat :=
  if '0' ≤ c ∧ c ≤ '9' then some (c.toNat - 48)
  else if 'a' ≤ c ∧ c ≤ 'f' then some (c.toNat - 87)
  else if 'A' ≤ c ∧ c ≤ 'F' then some (c.toNat - 55)
  else none

/-- Parse the body of a JSON string after the opening quote; returns the
decoded characters and the rest of the input after the closing quote.
The fuel bounds the number of consumed characters, so `length + 1`
always suffices. -/
def parseStringBody : Nat → Str → Option (Str × Str)
  | 0, _ => none
  | _, [] => none
  | fuel + 1, c :: rest =>
    if c = '"' then some ([], rest)
    else if c = '\\' then
      match rest with
      | [] => none
      | e :: rest2 =>
        if e = 'u' then
          match rest2 with
          | h1 :: h2 :: h3 :: h4 :: rest3 =>
            match hexVal h1, hexVal h2, hexVal h3, hexVal h4 with
            | some a, some b, some c3, some d =>
              (parseStringBody fuel rest3).map fun p =>
                (Char.ofNat (((a * 16 + b) * 16 + c3) * 16 + d) :: p.1, p.2)
            | _, _, _, _ => none
          | _ => none
        else
          match escChar e with
          | some ec => (parseStringBody fuel rest2).map fun p => (ec :: p.1, p.2)
          | none => none
    else (parseStringBody fuel rest).map fun p => (c :: p.1, p.2)

/-- Parse a JSON integer literal (sign and digit run, no leading zeros). -/
def parseNumber (s : Str) : Option (Json × Str) :=
  let neg := s.head? = some '-'
  let s1 := if neg then s.tail else s
  let ds := s1.takeWhile Char.isDigit
  let rest := s1.dropWhile Char.isDigit
  if ds.isEmpty then none
  else if ds.length > 1 ∧ ds.head? = some '0' then none
  else
    let n : Nat := ds.foldl (fun a c => a * 10 + (c.toNat - 48)) 0
    some (Json.num (if neg then -(n : Int) else (n : Int)), rest)

/-- Insert a key into an association list with Python-`dict` semantics:
an existing key keeps its position and gets the new value. -/
def insertKey (kvs : List (Str × Json)) (k : Str) (v : Json) : List (Str × Json) :=
  match kvs with
  | [] => [(k, v)]
  | (k0, v0) :: t => if k0 = k then (k0, v) :: t else (k0, v0) :: insertKey t k v

mutual

/-- Fueled recursive-descent parser for one JSON value; returns the value
and the unconsumed remainder of the input. -/
def parseJsonValue : Nat → Str → Option (Json × Str)
  | 0, _ => none
  | fuel + 1, s =>
    match skipWs s with
    | [] => none
    | c :: rest =>
      if c = 'n' then
        if (lit "ull").isPrefixOf rest then some (Json.null, rest.drop 3) else none
      else if c = 't' then
        if (lit "rue").isPrefixOf rest then some (Json.bool true, rest.drop 3) else none
      else if c = 'f' then
        if (lit "alse").isPrefixOf rest then some (Json.bool false, rest.drop 4) else none
      else if c = '"' then
        (parseStringBody (rest.length + 1) rest).map fun p => (Json.str p.1, p.2)
      else if c = '[' then
        match skipWs rest with
        | ']' :: rest2 => some (Json.arr [], rest2)
        | _ => (parseElems fuel rest).map fun p => (Json.arr p.1, p.2)
      else if c = '{' then
        match skipWs rest with
        | '}' :: rest2 => some (Json.obj [], rest2)
        | _ =>
          (parseMembers fuel rest).map fun p =>
            (Json.obj (p.1.foldl (fun acc kv => insertKey acc kv.1 kv.2) []), p.2)
      else if c = '-' ∨ c.isDigit then parseNumber (c :: rest)
      else none

/-- Parse the elements of a non-empty JSON array (after the `[`). -/
def parseElems : Nat → Str → Option (List Json × Str)
  | 0, _ => none
  | fuel + 1, s =>
    match parseJsonValue fuel s with
    | none => none
    | some (v, rest) =>
      match skipWs rest with
      | ',' :: rest2 => (parseElems fuel rest2).map fun p => (v :: p.1, p.2)
      | ']' :: rest2 => some ([v], rest2)
      | _ => none

/-- Parse the members of a non-empty JSON object (after the `{`). -/
def parseMembers : Nat → Str → Option (List (Str × Json) × Str)
  | 0, _ => none
  | fuel + 1, s =>
    match skipWs s with
    | '"' :: rest =>
      match parseStringBody (rest.length + 1) rest with
      | none => none
      | some (k, rest2) =>
        match skipWs rest2 with
        | ':' :: rest3 =>
          match parseJsonValue fuel rest3 with
          | none => none
          | some (v, rest4) =>
            match skipWs rest4 with
            | ',' :: rest5 => (parseMembers fuel rest5).map fun p => ((k, v) :: p.1, p.2)
            | '}' :: rest5 => some ([(k, v)], rest5)
            | _ => none
        | _ => none
    | _ => none

end

/-- Model of Python `json.loads`: parse a complete JSON document, failing
when anything but whitespace trails the value. -/
def pyJsonLoads (s : Str) : Option Json :=
  match parseJsonValue (s.length + 1) s with
  | some (v, rest) => if (skipWs rest).isEmpty then some v else none
  | none => none

/-- Hexadecimal digits (lower case) of `n`, padded to four places. -/
def hex4 (n : Nat) : Str :=
  let d := fun (m : Nat) => Char.ofNat (if m < 10 then 48 + m else 87 + m)
  [d (n / 4096 % 16), d (n / 256 % 16), d (n / 16 % 16), d (n % 16)]

/-- Escaping of one character inside a serialized JSON string, following
Python `json.dumps` defaults (`ensure_ascii=True`). -/
def escapeJsonChar (c : Char) : Str :=
  if c = '"' then ['\\', '"']
  else if c = '\\' then ['\\', '\\']
  else if c = '\n' then ['\\', 'n']
  else if c = '\t' then ['\\', 't']
  else if c = '\x0d' then ['\\', 'r']
  else if c = Char.ofNat 8 then ['\\', 'b']
  else if c = Char.ofNat 12 then ['\\', 'f']
  else if c.toNat < 32 ∨ c.toNat > 126 then '\\' :: 'u' :: hex4 c.toNat
  else [c]

/-- Serialization of one JSON string literal, quotes included. -/
def dumpString (s : Str) : Str :=
  '"' :: s.flatMap escapeJsonChar ++ ['"']

mutual

/-- Model of Python `json.dumps` with default separators (`", "` between
items and `": "` after keys). -/
def dumps : Json → Str
  | Json.null => lit "null"
  | Json.bool true => lit "true"
  | Json.bool false => lit "false"
  | Json.num n => (toString n).toList
  | Json.str s => dumpString s
  | Json.arr xs => '[' :: joinSep (lit ", ") (dumpsList xs) ++ [']']
  | Json.obj kvs => '{' :: joinSep (lit ", ") (dumpsKVs kvs) ++ ['}']

/-- Serialized forms of the elements of a JSON array. -/
def dumpsList : List Json → List Str
  | [] => []
  | x :: t => dumps x :: dumpsList t

/-- Serialized `key: value` members of a JSON object. -/
def dumpsKVs : List (Str × Json) → List Str
  | [] => []
  | (k, v) :: t => (dumpString k ++ lit ": " ++ dumps v) :: dumpsKVs t

end

namespace ContentParser

/-- Modelled from the spec: `ContentParser._process_arguments` from the
missing `app/services/content_parser.py`.  Normalizes the `arguments`
field of a decoded tool call to a JSON string: a string value is itself
parsed as JSON and re-serialized canonically when possible and kept
verbatim otherwise; any other JSON value is serialized to its JSON text. -/
def process_arguments (v : Json) : Str :=
  match v with
  | Json.str s =>
    match pyJsonLoads s with
    | some j => dumps j
    | none => s
  | _ => dumps v

end ContentParser

/-! ## Streaming transcoder (`app/services/stream_processor.py` and
`OpenAIAPIHandler.build_streaming_generator`) -/

/-- One native (already structured) tool-call delta arriving from the
upstream server, as carried by `delta.tool_calls` on a chunk. -/
structure NativeTC where
  index : Option Nat
  id : Option Str
  name : Option Str
  arguments : Option Str
deriving DecidableEq

/-- One `data:` frame yielded by the streaming generator, abstracted to
its semantic payload. -/
inductive Event where
  | content (text : Str) : Event
  | reasoning (text : Str) : Event
  | toolCallName (slot : Nat) (id : Str) (name : Json) : Event
  | toolCallArgs (slot : Nat) (arguments : Str) : Event
  | native (tcs : List NativeTC) : Event
  | finish (reason : Str) : Event
  | error (msg : Str) : Event
  | done : Event

/-- `StreamingState` from `stream_processor.py`. -/
structure StreamingState where
  content_buffer : Str
  current_tool_call_index : Nat
  role_sent : Bool
  streamed_tool_calls_exist : Bool
  in_think_block : Bool
  in_tool_call_block : Bool
  tool_call_buffer : Str

/-- The `StreamingState.__init__` defaults. -/
def initState : StreamingState :=
  { content_buffer := [], current_tool_call_index := 0, role_sent := false,
    streamed_tool_calls_exist := false, in_think_block := false,
    in_tool_call_block := false, tool_call_buffer := [] }

/-- The `action` component returned by `StreamProcessor.find_next_tag`. -/
inductive TagAction where
  | content : TagAction
  | think_open : TagAction
  | think_close : TagAction
  | tool_call_open : TagAction
  | tool_call_close : TagAction
deriving DecidableEq

/-- `StreamProcessor.find_next_tag`: locate the next tag relevant to the
current state; `(buffer length, content, 0)` when none is found. -/
def find_next_tag (content_buffer : Str) (start_idx : Nat) (state : StreamingState) :
    Nat × TagAction × Nat :=
  if !state.in_think_block && !state.in_tool_call_block then
    let think_open_pos := pyFind content_buffer (lit "<think>") start_idx
    let tool_open_pos := pyFind content_buffer (lit "<tool_call>") start_idx
    let r1 : Option (Nat × TagAction × Nat) :=
      match think_open_pos with
      | some p => some (p, TagAction.think_open, 7)
      | none => none
    let r2 : Option (Nat × TagAction × Nat) :=
      match tool_open_pos, r1 with
      | some p, some (q, a, l) =>
        if p < q then some (p, TagAction.tool_call_open, 11) else some (q, a, l)
      | some p, none => some (p, TagAction.tool_call_open, 11)
      | none, r => r
    match r2 with
    | some r => r
    | none => (content_buffer.length, TagAction.content, 0)
  else if state.in_think_block then
    match pyFind content_buffer (lit "</think>") start_idx with
    | some p => (p, TagAction.think_close, 8)
    | none => (content_buffer.length, TagAction.content, 0)
  else
    match pyFind content_buffer (lit "</tool_call>") start_idx with
    | some p => (p, TagAction.tool_call_close, 12)
    | none => (content_buffer.length, TagAction.content, 0)

/-- `StreamProcessor.process_tag_actions`. -/
def process_tag_actions (action : TagAction) (state : StreamingState) : StreamingState :=
  match action with
  | TagAction.think_open => { state with in_think_block := true }
  | TagAction.think_close => { state with in_think_block := false }
  | TagAction.tool_call_open => { state with in_tool_call_block := true, tool_call_buffer := [] }
  | TagAction.tool_call_close => { state with in_tool_call_block := false }
  | TagAction.content => state

/-- The `if role_to_yield and not state.role_sent` bookkeeping shared by
the emitting helpers: mark the role as sent when it is attached. -/
def roleUpdate (state : StreamingState) (role_to_yield : Option Str) : StreamingState :=
  if truthyOS role_to_yield && !state.role_sent
  then { state with role_sent := true } else state

@[simp] theorem roleUpdate_content_buffer (state : StreamingState) (role : Option Str) :
    (roleUpdate state role).content_buffer = state.content_buffer := by
  unfold roleUpdate; split <;> rfl

@[simp] theorem roleUpdate_index (state : StreamingState) (role : Option Str) :
    (roleUpdate state role).current_tool_call_index = state.current_tool_call_index := by
  unfold roleUpdate; split <;> rfl

@[simp] theorem roleUpdate_streamed (state : StreamingState) (role : Option Str) :
    (roleUpdate state role).streamed_tool_calls_exist = state.streamed_tool_calls_exist := by
  unfold roleUpdate; split <;> rfl

@[simp] theorem roleUpdate_in_think (state : StreamingState) (role : Option Str) :
    (roleUpdate state role).in_think_block = state.in_think_block := by
  unfold roleUpdate; split <;> rfl

@[simp] theorem roleUpdate_in_tool (state : StreamingState) (role : Option Str) :
    (roleUpdate state role).in_tool_call_block = state.in_tool_call_block := by
  unfold roleUpdate; split <;> rfl

@[simp] theorem roleUpdate_tool_buffer (state : StreamingState) (role : Option Str) :
    (roleUpdate state role).tool_call_buffer = state.tool_call_buffer := by
  unfold roleUpdate; split <;> rfl

/-- `StreamProcessor.yield_content_segment`: emit one content or reasoning
frame for a non-empty span, recording role emission. -/
def yield_content_segment (state : StreamingState) (content_segment : Str)
    (role_to_yield : Option Str) : List Event × StreamingState :=
  if content_segment.isEmpty then ([], state)
  else
    let ev := if state.in_think_block then Event.reasoning content_segment
              else Event.content content_segment
    ([ev], roleUpdate state role_to_yield)

/-- `StreamProcessor.yield_tool_call_name_chunk`. -/
def yield_tool_call_name_chunk (state : StreamingState) (tool_call_id : Str)
    (name : Json) (role_to_yield : Option Str) : List Event × StreamingState :=
  ([Event.toolCallName state.current_tool_call_index tool_call_id name],
   roleUpdate state role_to_yield)

/-- `StreamProcessor.yield_tool_call_args_chunk`. -/
def yield_tool_call_args_chunk (state : StreamingState) (arguments_str : Str) :
    List Event × StreamingState :=
  ([Event.toolCallArgs state.current_tool_call_index arguments_str], state)

/-- `StreamProcessor.yield_raw_tool_content`: wrap the buffered text back
in its tags and emit it via `yield_content_segment`. -/
def yield_raw_tool_content (state : StreamingState) (role_to_yield : Option Str) :
    List Event × StreamingState :=
  yield_content_segment state (lit "<tool_call>" ++ state.tool_call_buffer ++ lit "</tool_call>")
    role_to_yield

/-- `StreamProcessor.yield_native_tool_call`. -/
def yield_native_tool_call (state : StreamingState) (current_chunk_tool_calls : List NativeTC)
    (role_to_yield : Option Str) : List Event × StreamingState :=
  ([Event.native current_chunk_tool_calls], roleUpdate state role_to_yield)

/-- `StreamProcessor.yield_finish_chunk`: override a generic `stop` reason
to `tool_calls` when any tool call was streamed. -/
def yield_finish_chunk (state : StreamingState) (finish_reason : Str)
    (role_to_yield : Option Str) : List Event × StreamingState :=
  let final_reason :=
    if state.streamed_tool_calls_exist && finish_reason = lit "stop"
    then lit "tool_calls" else finish_reason
  ([Event.finish final_reason], state)

/-- The decode step of `StreamProcessor.process_tool_call_close`:
`json.loads` on the stripped buffered `<tool_call>` body, requiring a dict
holding both a `name` and an `arguments` key (of any type); `none` models
the caught `JSONDecodeError`/`ValueError`. -/
def streamDecodeToolCall (raw : Str) : Option (Json × Json) :=
  match pyJsonLoads (pyStrip raw) with
  | some (Json.obj kvs) =>
    match List.lookup (lit "name") kvs, List.lookup (lit "arguments") kvs with
    | some nv, some av => some (nv, av)
    | _, _ => none
  | _ => none

/-- `StreamProcessor.process_tool_call_close`: on decode success emit the
name and arguments frames and advance the slot counter, otherwise re-emit
the raw wrapped text; the buffer is cleared in both cases (the `finally`). -/
def process_tool_call_close (state : StreamingState) (new_call_id : Str)
    (role_to_yield : Option Str) : List Event × StreamingState :=
  match streamDecodeToolCall state.tool_call_buffer with
  | some (nv, av) =>
    let arguments_str := ContentParser.process_arguments av
    let r1 := yield_tool_call_name_chunk state new_call_id nv role_to_yield
    let r2 := yield_tool_call_args_chunk r1.2 arguments_str
    (r1.1 ++ r2.1,
     { r2.2 with current_tool_call_index := r2.2.current_tool_call_index + 1,
                 streamed_tool_calls_exist := true, tool_call_buffer := [] })
  | none =>
    let r := yield_raw_tool_content state role_to_yield
    (r.1, { r.2 with tool_call_buffer := [] })

/-- The segment-handling step of the streaming loop: a non-empty span is
diverted into the tool-call buffer while inside a `<tool_call>` block and
emitted as a content/reasoning frame otherwise. -/
def emitSegment (state : StreamingState) (content_segment : Str)
    (role_to_yield : Option Str) : List Event × StreamingState :=
  if !content_segment.isEmpty then
    if state.in_tool_call_block then
      ([], { state with tool_call_buffer := state.tool_call_buffer ++ content_segment })
    else yield_content_segment state content_segment role_to_yield
  else ([], state)

/-- The `while processed_upto_buffer_idx < len(state.content_buffer)` loop
of `build_streaming_generator`, with the scan offset made explicit and the
fresh-uuid supply abstracted as `ids : Nat → Str` (position `k` is the
next unused identifier).  The fuel only bounds the number of loop
iterations; each iteration advances the offset, so `buffer.length + 1`
iterations always suffice.  Returns the emitted events, the updated state,
the next identifier position and the final scan offset. -/
def processLoop (ids : Nat → Str) (role_to_yield : Option Str) (buffer : Str) :
    Nat → Nat → StreamingState → Nat → List Event × StreamingState × Nat × Nat
  | 0, idx, state, k => ([], state, k, idx)
  | fuel + 1, idx, state, k =>
    if idx < buffer.length then
      let r := find_next_tag buffer idx state
      let match_pos := r.1
      let action := r.2.1
      let tag_len := r.2.2
      let segment_end := min match_pos buffer.length
      let content_segment := pySlice buffer idx segment_end
      let r1 := emitSegment state content_segment role_to_yield
      if action ≠ TagAction.content ∧ segment_end < buffer.length then
        let state2 := process_tag_actions action r1.2
        let idx2 := segment_end + tag_len
        if action = TagAction.tool_call_close then
          let r2 := process_tool_call_close state2 (ids k) role_to_yield
          let r3 := processLoop ids role_to_yield buffer fuel idx2 r2.2 (k + 1)
          (r1.1 ++ r2.1 ++ r3.1, r3.2)
        else
          let r3 := processLoop ids role_to_yield buffer fuel idx2 state2 k
          (r1.1 ++ r3.1, r3.2)
      else
        let r3 := processLoop ids role_to_yield buffer fuel segment_end r1.2 k
        (r1.1 ++ r3.1, r3.2)
    else ([], state, k, idx)

/-- The incomplete-state recovery of the end-of-stream handling: an
unterminated `<tool_call>` (or, as a safeguard, `<think>`) block is
re-emitted as a raw content/reasoning frame. -/
def flushIncomplete (state : StreamingState) (role_to_yield : Option Str) :
    List Event × StreamingState :=
  if state.in_tool_call_block && !state.tool_call_buffer.isEmpty then
    yield_content_segment state (lit "<tool_call>" ++ state.tool_call_buffer) role_to_yield
  else if state.in_think_block && !state.content_buffer.isEmpty then
    yield_content_segment state state.content_buffer role_to_yield
  else ([], state)

/-- The end-of-stream handling of `build_streaming_generator` (the body of
`if finish_reason:`): recover an unterminated block, then emit the finish
frame. -/
def handleFinish (state : StreamingState) (finish_reason : Str)
    (role_to_yield : Option Str) : List Event × StreamingState :=
  let r1 := flushIncomplete state role_to_yield
  let r2 := yield_finish_chunk r1.2 finish_reason role_to_yield
  (r1.1 ++ r2.1, r2.2)

/-- One upstream `ChatCompletionChunk` with a single choice, reduced to
the delta fields the generator reads. -/
structure Chunk where
  role : Option Str
  content : Option Str
  tool_calls : Option (List NativeTC)
  finish_reason : Option Str

/-- Python truthiness of the optional native tool-call list. -/
def truthyTC (o : Option (List NativeTC)) : Bool :=
  match o with
  | none => false
  | some l => !l.isEmpty

/-- The per-chunk `role_to_yield_on_first_delta` computation. -/
def roleToYield (c : Chunk) (state : StreamingState) : Option Str :=
  if !state.role_sent then
    if truthyOS c.role then c.role
    else if truthyOS c.content || truthyTC c.tool_calls then some (lit "assistant")
    else none
  else none

/-- Append a truthy chunk content to the state's content buffer. -/
def contentAppended (c : Chunk) (state : StreamingState) : StreamingState :=
  if truthyOS c.content
  then { state with content_buffer := state.content_buffer ++ c.content.getD [] }
  else state

/-- The body of the `for chunk in response_stream` loop for one chunk.
Returns the events yielded for this chunk, the updated state, the next
identifier position, and `true` when the generator `break`s (a truthy
finish reason was handled). -/
def processChunk (ids : Nat → Str) (k : Nat) (c : Chunk) (state : StreamingState) :
    List Event × StreamingState × Nat × Bool :=
  let role_to_yield := roleToYield c state
  if truthyTC c.tool_calls then
    let tcs := c.tool_calls.getD []
    let state1 := { state with in_think_block := false, in_tool_call_block := false,
                               tool_call_buffer := [], content_buffer := [] }
    let r := yield_native_tool_call state1 tcs role_to_yield
    let state3 :=
      match tcs.getLast? with
      | some last =>
        match last.index with
        | some i => { r.2 with current_tool_call_index := i + 1 }
        | none => r.2
      | none => r.2
    let state4 := { state3 with streamed_tool_calls_exist := true }
    let state5 := contentAppended c state4
    (r.1, state5, k, false)
  else
    let state1 := contentAppended c state
    let buffer := state1.content_buffer
    let r := processLoop ids role_to_yield buffer (buffer.length + 1) 0 state1 k
    let evs1 := r.1
    let state2 := r.2.1
    let k2 := r.2.2.1
    let final_idx := r.2.2.2
    let state3 := { state2 with content_buffer := buffer.drop final_idx }
    if truthyOS c.finish_reason then
      let rf := handleFinish state3 (c.finish_reason.getD []) role_to_yield
      (evs1 ++ rf.1, rf.2, k2, true)
    else (evs1, state3, k2, false)

/-- One element of the upstream stream: either a well-formed single-choice
chunk, or a fault standing for an unexpected exception raised while
handling the stream at that point (caught by the generator's `except`). -/
inductive Input where
  | chunk (c : Chunk) : Input
  | fault (msg : Str) : Input

/-- Result of draining the upstream stream inside the `try` block. -/
structure RunResult where
  events : List Event
  state : StreamingState
  idGen : Nat
  fault : Option Str
  stopReason : Option Str

/-- The `try` body of the generator: process chunks in order, stopping at
the first handled finish reason (`break`) or at a fault (exception). -/
def runChunks (ids : Nat → Str) : List Input → StreamingState → Nat → RunResult
  | [], state, k =>
    { events := [], state := state, idGen := k, fault := none, stopReason := none }
  | Input.fault m :: _, state, k =>
    { events := [], state := state, idGen := k, fault := some m, stopReason := none }
  | Input.chunk c :: rest, state, k =>
    let p := processChunk ids k c state
    if p.2.2.2 then
      { events := p.1, state := p.2.1, idGen := p.2.2.1, fault := none,
        stopReason := c.finish_reason }
    else
      let r := runChunks ids rest p.2.1 p.2.2.1
      { r with events := p.1 ++ r.events }

/-- `OpenAIAPIHandler.build_streaming_generator`: the full generator with
its `try`/`except`/`finally` wrapper — on a fault an error frame is
emitted, and the `[DONE]` sentinel is always the final frame. -/
def build_streaming_generator (ids : Nat → Str) (inputs : List Input) : List Event :=
  let r := runChunks ids inputs initState 0
  match r.fault with
  | some m =>
    r.events ++ [Event.error (lit "Internal proxy error during stream: " ++ m), Event.done]
  | none => r.events ++ [Event.done]

/-! ## Batch transcoder (`ContentParser`, modelled from the spec) and the
non-streaming response handler -/

/-- A decoded tool call in the batch output (spec §3 `ToolCall`). -/
structure ToolCall where
  name : Str
  arguments : Str
deriving DecidableEq

/-- The record returned by the batch transcoder (spec §4.5). -/
structure ParsedContent where
  cleaned_content : Option Str
  parsed_tool_calls : List ToolCall
  reasoning_content : Option Str

namespace ContentParser

/-- Modelled from the spec: the Tool-Call Decoder (§4.3) used by the
missing `ContentParser` — strip the raw block body, parse it as JSON and
require an object carrying a string `name` and an `arguments` value;
normalize the arguments via `process_arguments`. -/
def decode_tool_call (raw : Str) : Option ToolCall :=
  match pyJsonLoads (pyStrip raw) with
  | some (Json.obj kvs) =>
    match List.lookup (lit "name") kvs, List.lookup (lit "arguments") kvs with
    | some (Json.str n), some av => some { name := n, arguments := process_arguments av }
    | _, _ => none
  | _ => none

/-- Modelled from the spec: the scan/transition/emit loop of the batch
transcoder (§4.5) run to exhaustion over the whole string.  Plain spans
accumulate into `content`, each well-formed `<tool_call>` block contributes
one decoded tool call (malformed blocks stay in place as literal text),
each closed `<think>` body is stripped and collected, and an unterminated
tag at end of input is left verbatim in the content. -/
def parse_loop (s : Str) : Nat → Nat → Str → List ToolCall → List Str →
    Str × List ToolCall × List Str
  | 0, _, content, tools, reasons => (content, tools, reasons)
  | fuel + 1, i, content, tools, reasons =>
    let pThink := pyFind s (lit "<think>") i
    let pTool := pyFind s (lit "<tool_call>") i
    let firstTag : Option (Nat × Bool) :=
      match pThink, pTool with
      | some a, some b => if a < b then some (a, true) else some (b, false)
      | some a, none => some (a, true)
      | none, some b => some (b, false)
      | none, none => none
    match firstTag with
    | none => (content ++ pySlice s i s.length, tools, reasons)
    | some (p, isThink) =>
      let content1 := content ++ pySlice s i p
      if isThink then
        match pyFind s (lit "</think>") (p + 7) with
        | some q =>
          parse_loop s fuel (q + 8) content1 tools (reasons ++ [pyStrip (pySlice s (p + 7) q)])
        | none => (content1 ++ pySlice s p s.length, tools, reasons)
      else
        match pyFind s (lit "</tool_call>") (p + 11) with
        | some q =>
          let inner := pySlice s (p + 11) q
          match decode_tool_call inner with
          | some tc => parse_loop s fuel (q + 12) content1 (tools ++ [tc]) reasons
          | none =>
            parse_loop s fuel (q + 12)
              (content1 ++ lit "<tool_call>" ++ inner ++ lit "</tool_call>") tools reasons
        | none => (content1 ++ pySlice s p s.length, tools, reasons)

/-- Modelled from the spec: `ContentParser.parse_and_clean_content` from
the missing `app/services/content_parser.py` — the Batch Transcoder of
§4.5.  Plain spans are concatenated and outer-trimmed (absent when empty),
stripped `<think>` bodies are joined with newlines (absent when none), and
well-formed `<tool_call>` blocks become the tool-call list. -/
def parse_and_clean_content (original_content : Option Str) : ParsedContent :=
  match original_content with
  | none => { cleaned_content := none, parsed_tool_calls := [], reasoning_content := none }
  | some s =>
    let r := parse_loop s (s.length + 1) 0 [] [] []
    let cleaned := pyStrip r.1
    { cleaned_content := if cleaned.isEmpty then none else some cleaned,
      parsed_tool_calls := r.2.1,
      reasoning_content := if r.2.2.isEmpty then none else some (joinSep (lit "\n") r.2.2) }

end ContentParser

/-- The final `tool_calls` value of a non-streaming choice message:
either the tool calls decoded from `<tool_call>` tags, or the upstream's
native tool calls passed through. -/
inductive FinalToolCalls where
  | fromTags (tools : List ToolCall) : FinalToolCalls
  | native (tcs : List NativeTC) : FinalToolCalls

/-- The choice message dictionary built by
`OpenAIAPIHandler.process_non_streaming_response`, plus the final finish
reason it returns. -/
structure NonStreamResult where
  role : Str
  content : Option Str
  reasoning_content : Option Str
  tool_calls : Option FinalToolCalls
  finish_reason : Str

/-- `OpenAIAPIHandler.process_non_streaming_response`: parse the message
content for tags, prefer tag-derived tool calls (forcing the finish reason
to `tool_calls` and nulling empty content), fall back to native tool
calls (keeping the upstream finish reason), else pass everything through. -/
def process_non_streaming_response (original_content : Option Str)
    (original_finish_reason : Str) (message_role : Option Str)
    (message_tool_calls : Option (List NativeTC)) : NonStreamResult :=
  let parsed := ContentParser.parse_and_clean_content original_content
  let cleaned := parsed.cleaned_content
  let role := match message_role with
    | some r => if r.isEmpty then lit "assistant" else r
    | none => lit "assistant"
  let reasoning := if truthyOS parsed.reasoning_content then parsed.reasoning_content else none
  if !parsed.parsed_tool_calls.isEmpty then
    { role := role,
      content := if !truthyOS cleaned then none else cleaned,
      reasoning_content := reasoning,
      tool_calls := some (FinalToolCalls.fromTags parsed.parsed_tool_calls),
      finish_reason := lit "tool_calls" }
  else if truthyTC message_tool_calls then
    { role := role,
      content := if !truthyOS cleaned then none else cleaned,
      reasoning_content := reasoning,
      tool_calls := some (FinalToolCalls.native (message_tool_calls.getD [])),
      finish_reason := original_finish_reason }
  else
    { role := role, content := cleaned, reasoning_content := reasoning,
      tool_calls := none, finish_reason := original_finish_reason }

/-! ## Claim-support definitions -/

/-- A concrete identifier supply, standing for the `uuid4`-based ids in
closed, fully concrete runs. -/
def defaultIds : Nat → Str := fun n => lit "call_" ++ (toString n).toList

/-- Does an event announce a tool call (tag-derived name frame or native
pass-through frame)? -/
def isToolCallEv : Event → Bool
  | Event.toolCallName _ _ _ => true
  | Event.native _ => true
  | _ => false

/-- Slots of the tag-derived tool-call name frames, in emission order. -/
def nameSlots (evs : List Event) : List Nat :=
  evs.filterMap fun e =>
    match e with
    | Event.toolCallName slot _ _ => some slot
    | _ => none

/-- Slot indices carried by the successively emitted tool calls
(tag-derived and native), in emission order. -/
def emittedSlots (evs : List Event) : List Nat :=
  evs.flatMap fun e =>
    match e with
    | Event.toolCallName slot _ _ => [slot]
    | Event.native tcs => tcs.filterMap NativeTC.index
    | _ => []

/-! ## Claims -/

/-- C1: the split-invariance claim fails on the code.  Partitioning
`"<think>x</think>"` as `["<thi", "nk>x</think>"]` makes the incremental
transcoder flush the split tag literal as two plain content events with no
reasoning event, while the batch transcoder on the whole string yields
reasoning `"x"` and no content: the two semantic event sequences differ. -/
theorem C1_split_invariance_counterexample :
    build_streaming_generator defaultIds
        [Input.chunk { role := none, content := some (lit "<thi"),
                       tool_calls := none, finish_reason := none },
         Input.chunk { role := none, content := some (lit "nk>x</think>"),
                       tool_calls := none, finish_reason := some (lit "stop") }]
      = [Event.content (lit "<thi"), Event.content (lit "nk>x</think>"),
         Event.finish (lit "stop"), Event.done]
    ∧ ContentParser.parse_and_clean_content (some (lit "<think>x</think>"))
      = { cleaned_content := none, parsed_tool_calls := [],
          reasoning_content := some (lit "x") } :=
  ⟨rfl, rfl⟩

/-- C2: the prefix-withholding claim fails on the code.  After processing
the single fragment `"<thi"` — whose whole text is a non-empty prefix of
the `<think>` tag legal in `Plain` mode — the transcoder has flushed it as
a content event and retains nothing in the buffer for the next fragment. -/
theorem C2_prefix_withholding_counterexample :
    processChunk defaultIds 0
        { role := none, content := some (lit "<thi"),
          tool_calls := none, finish_reason := none } initState
      = ([Event.content (lit "<thi")],
         { content_buffer := [], current_tool_call_index := 0, role_sent := true,
           streamed_tool_calls_exist := false, in_think_block := false,
           in_tool_call_block := false, tool_call_buffer := [] }, 0, false) :=
  rfl

/-- C3: for every tool-call block whose stripped body parses as a JSON
object holding both a `name` and an `arguments` key, closing the block
emits exactly one tool-call name frame — carrying that name and the
freshly generated call identifier — followed by exactly one arguments
frame carrying the canonical JSON normalization of the `arguments` value;
in particular `<tool_call>{"name":"f","arguments":{"a":1}}</tool_call>`
yields one name frame with name `"f"` and one arguments frame with
arguments `{"a": 1}`. -/
theorem C3_tool_call_success (state : StreamingState) (new_call_id : Str)
    (role : Option Str) (nv av : Json)
    (h : streamDecodeToolCall state.tool_call_buffer = some (nv, av)) :
    (process_tool_call_close state new_call_id role).1
      = [Event.toolCallName state.current_tool_call_index new_call_id nv,
         Event.toolCallArgs state.current_tool_call_index
           (ContentParser.process_arguments av)]
    ∧ build_streaming_generator defaultIds
        [Input.chunk { role := none,
                       content := some
                         (lit "<tool_call>\x7b\"name\":\"f\",\"arguments\":\x7b\"a\":1\x7d\x7d</tool_call>"),
                       tool_calls := none, finish_reason := some (lit "stop") }]
      = [Event.toolCallName 0 (defaultIds 0) (Json.str (lit "f")),
         Event.toolCallArgs 0 (lit "\x7b\"a\": 1\x7d"),
         Event.finish (lit "tool_calls"), Event.done] := by
  constructor
  · simp [process_tool_call_close, h, yield_tool_call_name_chunk,
          yield_tool_call_args_chunk, apply_ite]
  · rfl

/-- Witness for C3: the success path evaluated at the concrete block body
`{"name":"f","arguments":{"a":1}}`. -/
theorem C3_tool_call_success_witness :
    (process_tool_call_close
        { content_buffer := [], current_tool_call_index := 0, role_sent := false,
          streamed_tool_calls_exist := false, in_think_block := false,
          in_tool_call_block := true,
          tool_call_buffer := lit "\x7b\"name\":\"f\",\"arguments\":\x7b\"a\":1\x7d\x7d" }
        (lit "call_w") none).1
      = [Event.toolCallName 0 (lit "call_w") (Json.str (lit "f")),
         Event.toolCallArgs 0 (lit "\x7b\"a\": 1\x7d")] :=
  (C3_tool_call_success
    { content_buffer := [], current_tool_call_index := 0, role_sent := false,
      streamed_tool_calls_exist := false, in_think_block := false,
      in_tool_call_block := true,
      tool_call_buffer := lit "\x7b\"name\":\"f\",\"arguments\":\x7b\"a\":1\x7d\x7d" }
    (lit "call_w") none (Json.str (lit "f")) (Json.obj [(lit "a", Json.num 1)])
    (by rfl)).1

/-- C4: for every tool-call block whose body does not decode (invalid
JSON, or not an object with both `name` and `arguments` keys), closing
the block emits exactly one content event holding the original inner text
wrapped back in its `<tool_call>...</tool_call>` delimiters, emits no
tool-call frame, and processing continues normally (the buffer is merely
cleared and the session counters are untouched). -/
theorem C4_malformed_tool_call (state : StreamingState) (new_call_id : Str)
    (role : Option Str)
    (hfail : streamDecodeToolCall state.tool_call_buffer = none)
    (hthink : state.in_think_block = false) :
    process_tool_call_close state new_call_id role
      = ([Event.content (lit "<tool_call>" ++ state.tool_call_buffer ++ lit "</tool_call>")],
         { roleUpdate state role with tool_call_buffer := [] }) := by
  have hlt : lit "<tool_call>" ≠ [] := by decide
  simp [process_tool_call_close, hfail, yield_raw_tool_content,
        yield_content_segment, hlt, hthink]

/-- Witness for C4: the failure path evaluated at the concrete block body
`not json`. -/
theorem C4_malformed_tool_call_witness :
    process_tool_call_close
        { content_buffer := [], current_tool_call_index := 0, role_sent := true,
          streamed_tool_calls_exist := false, in_think_block := false,
          in_tool_call_block := false, tool_call_buffer := lit "not json" }
        (lit "call_w") none
      = ([Event.content (lit "<tool_call>not json</tool_call>")],
         { content_buffer := [], current_tool_call_index := 0, role_sent := true,
           streamed_tool_calls_exist := false, in_think_block := false,
           in_tool_call_block := false, tool_call_buffer := [] }) :=
  C4_malformed_tool_call
    { content_buffer := [], current_tool_call_index := 0, role_sent := true,
      streamed_tool_calls_exist := false, in_think_block := false,
      in_tool_call_block := false, tool_call_buffer := lit "not json" }
    (lit "call_w") none (by rfl) rfl

/-- C5: when the stream's finish reason arrives while the transcoder is
inside a `<tool_call>` block with a non-empty buffer, the end-of-stream
handling emits exactly one content event equal to the opening tag followed
by the unterminated buffer verbatim, then the finish frame, and no
tool-call frame; in particular delivering `<tool_call>{"name"` and then
ending the stream yields one content event `<tool_call>{"name"` verbatim. -/
theorem C5_unterminated_tool_call_flush (state : StreamingState)
    (finish_reason : Str) (role : Option Str)
    (h1 : state.in_tool_call_block = true)
    (h2 : state.tool_call_buffer ≠ [])
    (h3 : state.in_think_block = false) :
    (handleFinish state finish_reason role).1
      = [Event.content (lit "<tool_call>" ++ state.tool_call_buffer),
         Event.finish (if state.streamed_tool_calls_exist && finish_reason = lit "stop"
                       then lit "tool_calls" else finish_reason)]
    ∧ build_streaming_generator defaultIds
        [Input.chunk { role := none, content := some (lit "<tool_call>\x7b\"name\""),
                       tool_calls := none, finish_reason := none },
         Input.chunk { role := none, content := none, tool_calls := none,
                       finish_reason := some (lit "stop") }]
      = [Event.content (lit "<tool_call>\x7b\"name\""), Event.finish (lit "stop"),
         Event.done] := by
  have hne : (lit "<tool_call>" ++ state.tool_call_buffer).isEmpty = false := rfl
  constructor
  · simp [handleFinish, flushIncomplete, h1, h3, List.isEmpty_eq_false.mpr h2,
          yield_content_segment, hne, yield_finish_chunk, apply_ite]
  · rfl

/-- Witness for C5: the flush evaluated at the concrete unterminated
buffer `{"name"` with upstream reason `stop`. -/
theorem C5_unterminated_tool_call_flush_witness :
    (handleFinish
        { content_buffer := [], current_tool_call_index := 0, role_sent := true,
          streamed_tool_calls_exist := false, in_think_block := false,
          in_tool_call_block := true, tool_call_buffer := lit "\x7b\"name\"" }
        (lit "stop") none).1
      = [Event.content (lit "<tool_call>\x7b\"name\""), Event.finish (lit "stop")] := by
  have h := (C5_unterminated_tool_call_flush
    { content_buffer := [], current_tool_call_index := 0, role_sent := true,
      streamed_tool_calls_exist := false, in_think_block := false,
      in_tool_call_block := true, tool_call_buffer := lit "\x7b\"name\"" }
    (lit "stop") none rfl (by decide) rfl).1
  simpa using h

/-- C7: counterexample to the claim as stated.  A native tool call
arriving with upstream slot index `5` while the session's next slot is `0`
is re-emitted with its index `5` intact: the code does not assign a fresh
slot index, it passes the native delta through completely unmodified. -/
theorem C7_native_reindex_counterexample :
    (processChunk defaultIds 0
        { role := none, content := none,
          tool_calls := some [{ index := some 5, id := some (lit "id0"),
                                name := some (lit "f"), arguments := some (lit "\x7b\x7d") }],
          finish_reason := none } initState).1
      = [Event.native [{ index := some 5, id := some (lit "id0"),
                         name := some (lit "f"), arguments := some (lit "\x7b\x7d") }]]
    ∧ initState.current_tool_call_index = 0 ∧ (5 : Nat) ≠ 0 :=
  ⟨rfl, rfl, by decide⟩

/-- C7 (amended): when a chunk with native tool-call deltas arrives, the
tag-parsing state is reset to plain (both in-block flags cleared and the
tag buffer abandoned) and the native deltas are re-emitted completely
unmodified — retaining their upstream slot indices — while the session's
next-slot counter is set to the last native delta's index plus one. -/
theorem C7_native_passthrough_amended (ids : Nat → Str) (k : Nat) (c : Chunk)
    (state : StreamingState) (tcs : List NativeTC)
    (h1 : c.tool_calls = some tcs) (h2 : tcs ≠ []) :
    (processChunk ids k c state).1 = [Event.native tcs]
    ∧ (processChunk ids k c state).2.2.1 = k
    ∧ (processChunk ids k c state).2.2.2 = false
    ∧ (processChunk ids k c state).2.1.in_think_block = false
    ∧ (processChunk ids k c state).2.1.in_tool_call_block = false
    ∧ (processChunk ids k c state).2.1.tool_call_buffer = []
    ∧ (∀ last i, tcs.getLast? = some last → last.index = some i →
        (processChunk ids k c state).2.1.current_tool_call_index = i + 1) := by
  have htc : truthyTC (some tcs) = true := by
    simp [truthyTC, h2]
  refine ⟨?_, ?_, ?_, ?_, ?_, ?_, ?_⟩
  all_goals
    simp only [processChunk, roleToYield, contentAppended, h1, htc,
               yield_native_tool_call, if_true, Bool.or_true, Option.getD_some]
  all_goals intros
  all_goals (repeat' split) <;> simp_all

/-! ## Invariant lemmas for the session-level claims -/

/-- Events that the generator body can yield (everything except the
wrapper's error frame and the terminal `[DONE]` sentinel). -/
def isBodyEv : Event → Bool
  | Event.error _ => false
  | Event.done => false
  | _ => true

/-- Events that the inner scan loop can yield: text frames and tag-derived
tool-call frames only. -/
def isLoopEv : Event → Bool
  | Event.content _ => true
  | Event.reasoning _ => true
  | Event.toolCallName _ _ _ => true
  | Event.toolCallArgs _ _ => true
  | _ => false

/-- The reasons carried by the finish frames of an event list. -/
def finishReasons (evs : List Event) : List Str :=
  evs.filterMap fun e =>
    match e with
    | Event.finish r => some r
    | _ => none

theorem finishReasons_append (l1 l2 : List Event) :
    finishReasons (l1 ++ l2) = finishReasons l1 ++ finishReasons l2 := by
  simp [finishReasons]

theorem all_loopEv_body (l : List Event) (h : l.all isLoopEv = true) :
    l.all isBodyEv = true := by
  induction l with
  | nil => rfl
  | cons e t ih =>
    simp only [List.all_cons, Bool.and_eq_true] at h ⊢
    exact ⟨by cases e <;> simp_all [isLoopEv, isBodyEv], ih h.2⟩

theorem all_loopEv_noFinish (l : List Event) (h : l.all isLoopEv = true) :
    finishReasons l = [] := by
  induction l with
  | nil => rfl
  | cons e t ih =>
    simp only [List.all_cons, Bool.and_eq_true] at h
    have ht := ih h.2
    cases e <;> simp_all [isLoopEv, finishReasons]

theorem nameSlots_append (l1 l2 : List Event) :
    nameSlots (l1 ++ l2) = nameSlots l1 ++ nameSlots l2 := by
  simp [nameSlots]

theorem rangeAdd (a n m : Nat) :
    List.range' a n ++ List.range' (a + n) m = List.range' a (n + m) := by
  have h := List.range'_append a n m 1
  simp only [Nat.one_mul] at h
  rw [h, Nat.add_comm]

theorem yield_content_segment_noToolCall (state : StreamingState) (seg : Str)
    (role : Option Str) :
    (yield_content_segment state seg role).1.any isToolCallEv = false := by
  simp only [yield_content_segment]
  split
  · rfl
  · split <;> rfl

theorem yield_content_segment_nameSlots (state : StreamingState) (seg : Str)
    (role : Option Str) :
    nameSlots (yield_content_segment state seg role).1 = [] := by
  simp only [yield_content_segment]
  split
  · rfl
  · split <;> rfl

theorem yield_content_segment_body (state : StreamingState) (seg : Str)
    (role : Option Str) :
    (yield_content_segment state seg role).1.all isLoopEv = true := by
  simp only [yield_content_segment]
  split
  · rfl
  · split <;> rfl

theorem yield_content_segment_flag (state : StreamingState) (seg : Str)
    (role : Option Str) :
    (yield_content_segment state seg role).2.streamed_tool_calls_exist
      = state.streamed_tool_calls_exist := by
  simp only [yield_content_segment]
  split
  · rfl
  · simp

theorem yield_content_segment_index (state : StreamingState) (seg : Str)
    (role : Option Str) :
    (yield_content_segment state seg role).2.current_tool_call_index
      = state.current_tool_call_index := by
  simp only [yield_content_segment]
  split
  · rfl
  · simp

theorem emitSegment_noToolCall (state : StreamingState) (seg : Str) (role : Option Str) :
    (emitSegment state seg role).1.any isToolCallEv = false := by
  simp only [emitSegment]
  split
  · split
    · rfl
    · exact yield_content_segment_noToolCall state seg role
  · rfl

theorem emitSegment_nameSlots (state : StreamingState) (seg : Str) (role : Option Str) :
    nameSlots (emitSegment state seg role).1 = [] := by
  simp only [emitSegment]
  split
  · split
    · rfl
    · exact yield_content_segment_nameSlots state seg role
  · rfl

theorem emitSegment_body (state : StreamingState) (seg : Str) (role : Option Str) :
    (emitSegment state seg role).1.all isLoopEv = true := by
  simp only [emitSegment]
  split
  · split
    · rfl
    · exact yield_content_segment_body state seg role
  · rfl

theorem emitSegment_flag (state : StreamingState) (seg : Str) (role : Option Str) :
    (emitSegment state seg role).2.streamed_tool_calls_exist
      = state.streamed_tool_calls_exist := by
  simp only [emitSegment]
  split
  · split
    · rfl
    · exact yield_content_segment_flag state seg role
  · rfl

theorem emitSegment_index (state : StreamingState) (seg : Str) (role : Option Str) :
    (emitSegment state seg role).2.current_tool_call_index
      = state.current_tool_call_index := by
  simp only [emitSegment]
  split
  · split
    · rfl
    · exact yield_content_segment_index state seg role
  · rfl

theorem process_tag_actions_flag (action : TagAction) (state : StreamingState) :
    (process_tag_actions action state).streamed_tool_calls_exist
      = state.streamed_tool_calls_exist := by
  cases action <;> rfl

theorem process_tag_actions_index (action : TagAction) (state : StreamingState) :
    (process_tag_actions action state).current_tool_call_index
      = state.current_tool_call_index := by
  cases action <;> rfl

theorem process_tool_call_close_flag (state : StreamingState) (new_call_id : Str)
    (role : Option Str) :
    (process_tool_call_close state new_call_id role).2.streamed_tool_calls_exist
      = (state.streamed_tool_calls_exist
         || (process_tool_call_close state new_call_id role).1.any isToolCallEv) := by
  simp only [process_tool_call_close]
  split
  · simp [yield_tool_call_name_chunk, yield_tool_call_args_chunk, isToolCallEv]
  · simp only [yield_raw_tool_content]
    rw [yield_content_segment_noToolCall]
    simp [yield_content_segment_flag]

theorem process_tool_call_close_slots (state : StreamingState) (new_call_id : Str)
    (role : Option Str) :
    nameSlots (process_tool_call_close state new_call_id role).1
      = List.range' state.current_tool_call_index
          (nameSlots (process_tool_call_close state new_call_id role).1).length
    ∧ (process_tool_call_close state new_call_id role).2.current_tool_call_index
      = state.current_tool_call_index
        + (nameSlots (process_tool_call_close state new_call_id role).1).length := by
  simp only [process_tool_call_close]
  split
  · constructor
    · simp [yield_tool_call_name_chunk, yield_tool_call_args_chunk, nameSlots,
            List.range']
    · simp [yield_tool_call_name_chunk, yield_tool_call_args_chunk, nameSlots]
  · constructor
    · simp only [yield_raw_tool_content]
      rw [yield_content_segment_nameSlots]
      rfl
    · simp only [yield_raw_tool_content]
      rw [yield_content_segment_nameSlots]
      simp [yield_content_segment_index]

theorem process_tool_call_close_body (state : StreamingState) (new_call_id : Str)
    (role : Option Str) :
    (process_tool_call_close state new_call_id role).1.all isLoopEv = true := by
  simp only [process_tool_call_close]
  split
  · simp [yield_tool_call_name_chunk, yield_tool_call_args_chunk, isLoopEv]
  · simp only [yield_raw_tool_content]
    rw [yield_content_segment_body]

theorem processLoop_inv (ids : Nat → Str) (role : Option Str) (buffer : Str) :
    ∀ (fuel idx k : Nat) (state : StreamingState),
    ((processLoop ids role buffer fuel idx state k).2.1.streamed_tool_calls_exist
      = (state.streamed_tool_calls_exist
         || (processLoop ids role buffer fuel idx state k).1.any isToolCallEv))
    ∧ nameSlots (processLoop ids role buffer fuel idx state k).1
      = List.range' state.current_tool_call_index
          (nameSlots (processLoop ids role buffer fuel idx state k).1).length
    ∧ (processLoop ids role buffer fuel idx state k).2.1.current_tool_call_index
      = state.current_tool_call_index
        + (nameSlots (processLoop ids role buffer fuel idx state k).1).length
    ∧ (processLoop ids role buffer fuel idx state k).1.all isLoopEv = true := by
  intro fuel
  induction fuel with
  | zero =>
    intro idx k state
    simp [processLoop, nameSlots]
  | succ n ih =>
    intro idx k state
    by_cases hlt : idx < buffer.length
    · simp only [processLoop, if_pos hlt]
      split
      · split
        · -- tag found and it closes a tool call
          have he1 := emitSegment_flag state
            (pySlice buffer idx (min (find_next_tag buffer idx state).1 buffer.length)) role
          have he2 := emitSegment_index state
            (pySlice buffer idx (min (find_next_tag buffer idx state).1 buffer.length)) role
          have he3 := emitSegment_noToolCall state
            (pySlice buffer idx (min (find_next_tag buffer idx state).1 buffer.length)) role
          have he4 := emitSegment_nameSlots state
            (pySlice buffer idx (min (find_next_tag buffer idx state).1 buffer.length)) role
          have he5 := emitSegment_body state
            (pySlice buffer idx (min (find_next_tag buffer idx state).1 buffer.length)) role
          set r1 := emitSegment state
            (pySlice buffer idx (min (find_next_tag buffer idx state).1 buffer.length)) role
          set st2 := process_tag_actions (find_next_tag buffer idx state).2.1 r1.2
          have hp1 := process_tool_call_close_flag st2 (ids k) role
          have hp2 := process_tool_call_close_slots st2 (ids k) role
          have hp3 := process_tool_call_close_body st2 (ids k) role
          set r2 := process_tool_call_close st2 (ids k) role
          have hi := ih (min (find_next_tag buffer idx state).1 buffer.length
            + (find_next_tag buffer idx state).2.2) (k + 1) r2.2
          set r3 := processLoop ids role buffer n
            (min (find_next_tag buffer idx state).1 buffer.length
              + (find_next_tag buffer idx state).2.2) r2.2 (k + 1)
          obtain ⟨hiflag, hislots, hiidx, hibody⟩ := hi
          have hst2flag : st2.streamed_tool_calls_exist = state.streamed_tool_calls_exist := by
            rw [process_tag_actions_flag, he1]
          have hst2idx : st2.current_tool_call_index = state.current_tool_call_index := by
            rw [process_tag_actions_index, he2]
          have hL2 : nameSlots r2.1
              = List.range' state.current_tool_call_index (nameSlots r2.1).length := by
            conv_lhs => rw [hp2.1]
            rw [hst2idx]
          have hr2idx : r2.2.current_tool_call_index
              = state.current_tool_call_index + (nameSlots r2.1).length := by
            rw [hp2.2, hst2idx]
          have hL3 : nameSlots r3.1
              = List.range' (state.current_tool_call_index + (nameSlots r2.1).length)
                  (nameSlots r3.1).length := by
            conv_lhs => rw [hislots]
            rw [hr2idx]
          refine ⟨?_, ?_, ?_, ?_⟩
          · rw [hiflag, hp1, hst2flag]
            simp [List.any_append, he3, Bool.or_assoc]
          · rw [nameSlots_append, nameSlots_append, he4, List.nil_append,
                List.length_append]
            conv_lhs => rw [hL2, hL3]
            rw [rangeAdd]
          · rw [hiidx, hr2idx, nameSlots_append, nameSlots_append, he4,
                List.nil_append, List.length_append, Nat.add_assoc]
          · simp [List.all_append, he5, hp3, hibody]
        · -- tag found, not a tool-call close
          have he1 := emitSegment_flag state
            (pySlice buffer idx (min (find_next_tag buffer idx state).1 buffer.length)) role
          have he2 := emitSegment_index state
            (pySlice buffer idx (min (find_next_tag buffer idx state).1 buffer.length)) role
          have he3 := emitSegment_noToolCall state
            (pySlice buffer idx (min (find_next_tag buffer idx state).1 buffer.length)) role
          have he4 := emitSegment_nameSlots state
            (pySlice buffer idx (min (find_next_tag buffer idx state).1 buffer.length)) role
          have he5 := emitSegment_body state
            (pySlice buffer idx (min (find_next_tag buffer idx state).1 buffer.length)) role
          set r1 := emitSegment state
            (pySlice buffer idx (min (find_next_tag buffer idx state).1 buffer.length)) role
          set st2 := process_tag_actions (find_next_tag buffer idx state).2.1 r1.2
          have hi := ih (min (find_next_tag buffer idx state).1 buffer.length
            + (find_next_tag buffer idx state).2.2) k st2
          set r3 := processLoop ids role buffer n
            (min (find_next_tag buffer idx state).1 buffer.length
              + (find_next_tag buffer idx state).2.2) st2 k
          obtain ⟨hiflag, hislots, hiidx, hibody⟩ := hi
          have hst2flag : st2.streamed_tool_calls_exist = state.streamed_tool_calls_exist := by
            rw [process_tag_actions_flag, he1]
          have hst2idx : st2.current_tool_call_index = state.current_tool_call_index := by
            rw [process_tag_actions_index, he2]
          refine ⟨?_, ?_, ?_, ?_⟩
          · rw [hiflag, hst2flag]
            simp [List.any_append, he3]
          · rw [nameSlots_append, he4, List.nil_append]
            conv_lhs => rw [hislots, hst2idx]
          · rw [hiidx, hst2idx, nameSlots_append, he4, List.nil_append]
          · simp [List.all_append, he5, hibody]
      · -- no tag handled: recurse at the segment end
        have he1 := emitSegment_flag state
          (pySlice buffer idx (min (find_next_tag buffer idx state).1 buffer.length)) role
        have he2 := emitSegment_index state
          (pySlice buffer idx (min (find_next_tag buffer idx state).1 buffer.length)) role
        have he3 := emitSegment_noToolCall state
          (pySlice buffer idx (min (find_next_tag buffer idx state).1 buffer.length)) role
        have he4 := emitSegment_nameSlots state
          (pySlice buffer idx (min (find_next_tag buffer idx state).1 buffer.length)) role
        have he5 := emitSegment_body state
          (pySlice buffer idx (min (find_next_tag buffer idx state).1 buffer.length)) role
        set r1 := emitSegment state
          (pySlice buffer idx (min (find_next_tag buffer idx state).1 buffer.length)) role
        have hi := ih (min (find_next_tag buffer idx state).1 buffer.length) k r1.2
        set r3 := processLoop ids role buffer n
          (min (find_next_tag buffer idx state).1 buffer.length) r1.2 k
        obtain ⟨hiflag, hislots, hiidx, hibody⟩ := hi
        refine ⟨?_, ?_, ?_, ?_⟩
        · rw [hiflag, he1]
          simp [List.any_append, he3]
        · rw [nameSlots_append, he4, List.nil_append]
          conv_lhs => rw [hislots, he2]
        · rw [hiidx, he2, nameSlots_append, he4, List.nil_append]
        · simp [List.all_append, he5, hibody]
    · simp [processLoop, if_neg hlt, nameSlots]

theorem flushIncomplete_noToolCall (state : StreamingState) (role : Option Str) :
    (flushIncomplete state role).1.any isToolCallEv = false := by
  simp only [flushIncomplete]
  split
  · exact yield_content_segment_noToolCall _ _ _
  · split
    · exact yield_content_segment_noToolCall _ _ _
    · rfl

theorem flushIncomplete_nameSlots (state : StreamingState) (role : Option Str) :
    nameSlots (flushIncomplete state role).1 = [] := by
  simp only [flushIncomplete]
  split
  · exact yield_content_segment_nameSlots _ _ _
  · split
    · exact yield_content_segment_nameSlots _ _ _
    · rfl

theorem flushIncomplete_body (state : StreamingState) (role : Option Str) :
    (flushIncomplete state role).1.all isLoopEv = true := by
  simp only [flushIncomplete]
  split
  · exact yield_content_segment_body _ _ _
  · split
    · exact yield_content_segment_body _ _ _
    · rfl

theorem flushIncomplete_flag (state : StreamingState) (role : Option Str) :
    (flushIncomplete state role).2.streamed_tool_calls_exist
      = state.streamed_tool_calls_exist := by
  simp only [flushIncomplete]
  split
  · exact yield_content_segment_flag _ _ _
  · split
    · exact yield_content_segment_flag _ _ _
    · rfl

theorem flushIncomplete_index (state : StreamingState) (role : Option Str) :
    (flushIncomplete state role).2.current_tool_call_index
      = state.current_tool_call_index := by
  simp only [flushIncomplete]
  split
  · exact yield_content_segment_index _ _ _
  · split
    · exact yield_content_segment_index _ _ _
    · rfl

theorem handleFinish_shape (state : StreamingState) (finish_reason : Str)
    (role : Option Str) :
    (handleFinish state finish_reason role).1
      = (flushIncomplete state role).1
        ++ [Event.finish (if state.streamed_tool_calls_exist && finish_reason = lit "stop"
                          then lit "tool_calls" else finish_reason)] := by
  simp only [handleFinish, yield_finish_chunk]
  rw [flushIncomplete_flag]

theorem handleFinish_noToolCall (state : StreamingState) (finish_reason : Str)
    (role : Option Str) :
    (handleFinish state finish_reason role).1.any isToolCallEv = false := by
  rw [handleFinish_shape]
  simp [List.any_append, flushIncomplete_noToolCall, isToolCallEv]

theorem handleFinish_nameSlots (state : StreamingState) (finish_reason : Str)
    (role : Option Str) :
    nameSlots (handleFinish state finish_reason role).1 = [] := by
  rw [handleFinish_shape, nameSlots_append, flushIncomplete_nameSlots]
  simp [nameSlots]

theorem handleFinish_body (state : StreamingState) (finish_reason : Str)
    (role : Option Str) :
    (handleFinish state finish_reason role).1.all isBodyEv = true := by
  rw [handleFinish_shape]
  simp [List.all_append, all_loopEv_body _ (flushIncomplete_body state role), isBodyEv]

theorem handleFinish_finishReasons (state : StreamingState) (finish_reason : Str)
    (role : Option Str) :
    finishReasons (handleFinish state finish_reason role).1
      = [if state.streamed_tool_calls_exist && finish_reason = lit "stop"
         then lit "tool_calls" else finish_reason] := by
  rw [handleFinish_shape, finishReasons_append,
      all_loopEv_noFinish _ (flushIncomplete_body state role)]
  split <;> simp [finishReasons]

theorem handleFinish_flag (state : StreamingState) (finish_reason : Str)
    (role : Option Str) :
    (handleFinish state finish_reason role).2.streamed_tool_calls_exist
      = state.streamed_tool_calls_exist := by
  simp only [handleFinish, yield_finish_chunk]
  rw [flushIncomplete_flag]

theorem handleFinish_index (state : StreamingState) (finish_reason : Str)
    (role : Option Str) :
    (handleFinish state finish_reason role).2.current_tool_call_index
      = state.current_tool_call_index := by
  simp only [handleFinish, yield_finish_chunk]
  rw [flushIncomplete_index]

theorem contentAppended_flag (c : Chunk) (state : StreamingState) :
    (contentAppended c state).streamed_tool_calls_exist
      = state.streamed_tool_calls_exist := by
  simp only [contentAppended]; split <;> rfl

theorem contentAppended_index (c : Chunk) (state : StreamingState) :
    (contentAppended c state).current_tool_call_index
      = state.current_tool_call_index := by
  simp only [contentAppended]; split <;> rfl

theorem processChunk_flag (ids : Nat → Str) (k : Nat) (c : Chunk) (state : StreamingState) :
    (processChunk ids k c state).2.1.streamed_tool_calls_exist
      = (state.streamed_tool_calls_exist
         || (processChunk ids k c state).1.any isToolCallEv) := by
  simp only [processChunk]
  split
  · (repeat' split) <;>
      simp [yield_native_tool_call, isToolCallEv, contentAppended] <;>
      (repeat' split) <;> simp_all
  · have hloop := (processLoop_inv ids (roleToYield c state)
      (contentAppended c state).content_buffer
      ((contentAppended c state).content_buffer.length + 1) 0 k
      (contentAppended c state)).1
    split
    · rw [handleFinish_flag]
      simp only [StreamingState.streamed_tool_calls_exist] at *
      rw [hloop, contentAppended_flag, List.any_append, handleFinish_noToolCall]
      simp [Bool.or_assoc]
    · simp only [StreamingState.streamed_tool_calls_exist] at *
      rw [hloop, contentAppended_flag]

theorem processChunk_body (ids : Nat → Str) (k : Nat) (c : Chunk) (state : StreamingState) :
    (processChunk ids k c state).1.all isBodyEv = true := by
  simp only [processChunk]
  split
  · simp [yield_native_tool_call, isBodyEv]
  · have hloop := (processLoop_inv ids (roleToYield c state)
      (contentAppended c state).content_buffer
      ((contentAppended c state).content_buffer.length + 1) 0 k
      (contentAppended c state)).2.2.2
    split
    · rw [List.all_append, all_loopEv_body _ hloop, handleFinish_body]
      rfl
    · exact all_loopEv_body _ hloop

theorem processChunk_slots (ids : Nat → Str) (k : Nat) (c : Chunk) (state : StreamingState)
    (hnn : truthyTC c.tool_calls = false) :
    nameSlots (processChunk ids k c state).1
      = List.range' state.current_tool_call_index
          (nameSlots (processChunk ids k c state).1).length
    ∧ (processChunk ids k c state).2.1.current_tool_call_index
      = state.current_tool_call_index
        + (nameSlots (processChunk ids k c state).1).length := by
  simp only [processChunk, hnn, Bool.false_eq_true, if_false]
  have hloop := processLoop_inv ids (roleToYield c state)
    (contentAppended c state).content_buffer
    ((contentAppended c state).content_buffer.length + 1) 0 k
    (contentAppended c state)
  obtain ⟨-, hslots, hidx, -⟩ := hloop
  rw [contentAppended_index] at hslots hidx
  split
  · constructor
    · rw [nameSlots_append, handleFinish_nameSlots, List.append_nil]
      exact hslots
    · rw [handleFinish_index]
      simp only [StreamingState.current_tool_call_index] at *
      rw [nameSlots_append, handleFinish_nameSlots, List.append_nil, hidx]
  · constructor
    · exact hslots
    · simp only [StreamingState.current_tool_call_index] at *
      rw [hidx]

theorem processChunk_finish_truthy (ids : Nat → Str) (k : Nat) (c : Chunk)
    (state : StreamingState)
    (hfin : (processChunk ids k c state).2.2.2 = true) :
    truthyOS c.finish_reason = true := by
  by_cases hn : truthyTC c.tool_calls = true
  · simp [processChunk, hn] at hfin
  · rw [Bool.not_eq_true] at hn
    by_cases hf : truthyOS c.finish_reason = true
    · exact hf
    · rw [Bool.not_eq_true] at hf
      simp [processChunk, hn, hf] at hfin

theorem processChunk_noFin (ids : Nat → Str) (k : Nat) (c : Chunk)
    (state : StreamingState)
    (hfin : (processChunk ids k c state).2.2.2 = false) :
    finishReasons (processChunk ids k c state).1 = [] := by
  by_cases hn : truthyTC c.tool_calls = true
  · simp [processChunk, hn, yield_native_tool_call, finishReasons]
  · rw [Bool.not_eq_true] at hn
    by_cases hf : truthyOS c.finish_reason = true
    · simp [processChunk, hn, hf] at hfin
    · rw [Bool.not_eq_true] at hf
      have hloop := (processLoop_inv ids (roleToYield c state)
        (contentAppended c state).content_buffer
        ((contentAppended c state).content_buffer.length + 1) 0 k
        (contentAppended c state)).2.2.2
      simp only [processChunk, hn, hf, Bool.false_eq_true, if_false]
      exact all_loopEv_noFinish _ hloop

theorem processChunk_fin (ids : Nat → Str) (k : Nat) (c : Chunk)
    (state : StreamingState) (r : Str) (hr : c.finish_reason = some r)
    (hfin : (processChunk ids k c state).2.2.2 = true) :
    finishReasons (processChunk ids k c state).1
      = [if (state.streamed_tool_calls_exist
             || (processChunk ids k c state).1.any isToolCallEv)
            && r = lit "stop" then lit "tool_calls" else r] := by
  by_cases hn : truthyTC c.tool_calls = true
  · simp [processChunk, hn] at hfin
  · rw [Bool.not_eq_true] at hn
    by_cases hf : truthyOS c.finish_reason = true
    · have hloop := processLoop_inv ids (roleToYield c state)
        (contentAppended c state).content_buffer
        ((contentAppended c state).content_buffer.length + 1) 0 k
        (contentAppended c state)
      obtain ⟨hlflag, -, -, hlbody⟩ := hloop
      simp only [processChunk, hn, hf, Bool.false_eq_true, if_false, if_true]
      rw [finishReasons_append, all_loopEv_noFinish _ hlbody, List.nil_append,
          handleFinish_finishReasons, hr]
      simp only [Option.getD_some, List.any_append, handleFinish_noToolCall,
                 Bool.or_false, StreamingState.streamed_tool_calls_exist,
                 hlflag, contentAppended_flag, Bool.or_assoc]
    · rw [Bool.not_eq_true] at hf
      simp [processChunk, hn, hf] at hfin

theorem runChunks_finishReasons (ids : Nat → Str) :
    ∀ (inputs : List Input) (state : StreamingState) (k : Nat),
    (∀ r, (runChunks ids inputs state k).stopReason = some r →
      finishReasons (runChunks ids inputs state k).events
        = [if (state.streamed_tool_calls_exist
               || (runChunks ids inputs state k).events.any isToolCallEv)
              && r = lit "stop" then lit "tool_calls" else r])
    ∧ ((runChunks ids inputs state k).stopReason = none →
        finishReasons (runChunks ids inputs state k).events = []) := by
  intro inputs
  induction inputs with
  | nil =>
    intro state k
    constructor
    · intro r h
      simp [runChunks] at h
    · intro
      simp [runChunks, finishReasons]
  | cons i rest ih =>
    intro state k
    cases i with
    | fault m =>
      constructor
      · intro r h
        simp [runChunks] at h
      · intro
        simp [runChunks, finishReasons]
    | chunk c =>
      simp only [runChunks]
      split
      · rename_i hfin
        constructor
        · intro r hr
          simp only at hr
          rw [processChunk_fin ids k c state r hr hfin]
        · intro h0
          have ht := processChunk_finish_truthy ids k c state hfin
          simp only at h0
          rw [h0] at ht
          simp [truthyOS] at ht
      · rename_i hfin
        rw [Bool.not_eq_true] at hfin
        have pcNoFin := processChunk_noFin ids k c state hfin
        have pcFlag := processChunk_flag ids k c state
        obtain ⟨ih1, ih2⟩ := ih (processChunk ids k c state).2.1
          (processChunk ids k c state).2.2.1
        constructor
        · intro r hr
          simp only at hr ⊢
          rw [finishReasons_append, pcNoFin, List.nil_append, ih1 r hr,
              pcFlag, List.any_append, Bool.or_assoc]
        · intro h0
          simp only at h0 ⊢
          rw [finishReasons_append, pcNoFin, List.nil_append]
          exact ih2 h0

/-- C6: in a streaming session the finish frame is emitted exactly once,
and its reason is `tool_calls` precisely when some tool call (tag-derived
or native) was emitted during the session and the upstream's reported
reason is the string `stop`; in every other case the upstream reason is
passed through unchanged. -/
theorem C6_finish_reason_override (ids : Nat → Str) (inputs : List Input) (r : Str)
    (h : (runChunks ids inputs initState 0).stopReason = some r) :
    finishReasons (runChunks ids inputs initState 0).events
      = [if (runChunks ids inputs initState 0).events.any isToolCallEv && r = lit "stop"
         then lit "tool_calls" else r] := by
  have hmain := (runChunks_finishReasons ids inputs initState 0).1 r h
  simpa [initState] using hmain

/-- Witness for C6: a session delivering one well-formed `<tool_call>`
block and then upstream reason `stop` reports the single finish reason
`tool_calls`. -/
theorem C6_finish_reason_override_witness :
    finishReasons (runChunks defaultIds
        [Input.chunk { role := none,
                       content := some
                         (lit "<tool_call>\x7b\"name\":\"f\",\"arguments\":\x7b\x7d\x7d</tool_call>"),
                       tool_calls := none, finish_reason := some (lit "stop") }]
        initState 0).events
      = [lit "tool_calls"] := by
  have h := C6_finish_reason_override defaultIds
    [Input.chunk { role := none,
                   content := some
                     (lit "<tool_call>\x7b\"name\":\"f\",\"arguments\":\x7b\x7d\x7d</tool_call>"),
                   tool_calls := none, finish_reason := some (lit "stop") }]
    (lit "stop") rfl
  exact h.trans (by rfl)

/-- An input that carries no truthy native tool-call delta. -/
def inputNoNative : Input → Prop
  | Input.chunk c => truthyTC c.tool_calls = false
  | Input.fault _ => True

theorem runChunks_slots (ids : Nat → Str) :
    ∀ (inputs : List Input) (state : StreamingState) (k : Nat),
    (∀ i ∈ inputs, inputNoNative i) →
    nameSlots (runChunks ids inputs state k).events
      = List.range' state.current_tool_call_index
          (nameSlots (runChunks ids inputs state k).events).length
    ∧ (runChunks ids inputs state k).state.current_tool_call_index
      = state.current_tool_call_index
        + (nameSlots (runChunks ids inputs state k).events).length := by
  intro inputs
  induction inputs with
  | nil =>
    intro state k _
    simp [runChunks, nameSlots]
  | cons i rest ih =>
    intro state k hnn
    cases i with
    | fault m =>
      simp [runChunks, nameSlots]
    | chunk c =>
      have hc : truthyTC c.tool_calls = false := hnn (Input.chunk c) (List.mem_cons_self _ _)
      have hrest : ∀ i ∈ rest, inputNoNative i := fun i hi => hnn i (List.mem_cons_of_mem _ hi)
      have hpc := processChunk_slots ids k c state hc
      simp only [runChunks]
      split
      · simp only
        exact hpc
      · obtain ⟨ihslots, ihidx⟩ := ih (processChunk ids k c state).2.1
          (processChunk ids k c state).2.2.1 hrest
        have hL2 : nameSlots (processChunk ids k c state).1
            = List.range' state.current_tool_call_index
                (nameSlots (processChunk ids k c state).1).length := hpc.1
        have hr2idx : (processChunk ids k c state).2.1.current_tool_call_index
            = state.current_tool_call_index
              + (nameSlots (processChunk ids k c state).1).length := hpc.2
        have hL3 : nameSlots (runChunks ids rest (processChunk ids k c state).2.1
              (processChunk ids k c state).2.2.1).events
            = List.range' (state.current_tool_call_index
                + (nameSlots (processChunk ids k c state).1).length)
                (nameSlots (runChunks ids rest (processChunk ids k c state).2.1
                  (processChunk ids k c state).2.2.1).events).length := by
          conv_lhs => rw [ihslots]
          rw [hr2idx]
        constructor
        · simp only
          rw [nameSlots_append, List.length_append]
          conv_lhs => rw [hL2, hL3]
          rw [rangeAdd]
        · simp only
          rw [ihidx, hr2idx, nameSlots_append, List.length_append, Nat.add_assoc]

/-- C8: counterexample to the claim as stated.  Two upstream chunks each
carrying a native tool-call delta with index `0` are re-emitted with
slots `0, 0`: the slot of the later tool call is not greater than the
slot of the earlier one. -/
theorem C8_slot_monotonicity_counterexample :
    emittedSlots (build_streaming_generator defaultIds
        [Input.chunk { role := none, content := none,
                       tool_calls := some [{ index := some 0, id := some (lit "a"),
                                             name := some (lit "f"), arguments := none }],
                       finish_reason := none },
         Input.chunk { role := none, content := none,
                       tool_calls := some [{ index := some 0, id := none,
                                             name := none, arguments := some (lit "\x7b\x7d") }],
                       finish_reason := none },
         Input.chunk { role := none, content := none, tool_calls := none,
                       finish_reason := some (lit "stop") }])
      = [0, 0]
    ∧ ¬ List.Pairwise (· < ·) ([0, 0] : List Nat) := by
  constructor
  · rfl
  · decide

/-- C8 (amended): within one streaming session containing no native
tool-call chunks, the slots of the successively emitted tag-derived tool
calls are exactly `0, 1, 2, …` — starting at `0` and strictly increasing;
a native tool call instead keeps its upstream index, and the next-slot
counter continues from that index plus one, so monotonicity is not
guaranteed across native deltas. -/
theorem C8_slot_monotonicity_amended (ids : Nat → Str) (inputs : List Input)
    (h : ∀ i ∈ inputs, inputNoNative i) :
    nameSlots (build_streaming_generator ids inputs)
      = List.range' 0 (nameSlots (build_streaming_generator ids inputs)).length
    ∧ List.Pairwise (· < ·) (nameSlots (build_streaming_generator ids inputs)) := by
  have hb : nameSlots (build_streaming_generator ids inputs)
      = nameSlots (runChunks ids inputs initState 0).events := by
    simp only [build_streaming_generator]
    split <;> simp [nameSlots_append, nameSlots]
  have h1 := (runChunks_slots ids inputs initState 0 h).1
  constructor
  · rw [hb]
    simpa [initState] using h1
  · rw [hb, h1]
    simp only [initState]
    exact List.pairwise_lt_range' 0 _ 1

/-- Witness for the amended C8: a session with two tag-derived tool calls
and no native chunks gets slots `0, 1`. -/
theorem C8_slot_monotonicity_amended_witness :
    nameSlots (build_streaming_generator defaultIds
        [Input.chunk { role := none,
                       content := some (lit
                         "<tool_call>\x7b\"name\":\"f\",\"arguments\":\x7b\x7d\x7d</tool_call><tool_call>\x7b\"name\":\"g\",\"arguments\":\x7b\x7d\x7d</tool_call>"),
                       tool_calls := none, finish_reason := some (lit "stop") }])
      = List.range' 0 (nameSlots (build_streaming_generator defaultIds
          [Input.chunk { role := none,
                         content := some (lit
                           "<tool_call>\x7b\"name\":\"f\",\"arguments\":\x7b\x7d\x7d</tool_call><tool_call>\x7b\"name\":\"g\",\"arguments\":\x7b\x7d\x7d</tool_call>"),
                         tool_calls := none, finish_reason := some (lit "stop") }])).length :=
  (C8_slot_monotonicity_amended defaultIds
    [Input.chunk { role := none,
                   content := some (lit
                     "<tool_call>\x7b\"name\":\"f\",\"arguments\":\x7b\x7d\x7d</tool_call><tool_call>\x7b\"name\":\"g\",\"arguments\":\x7b\x7d\x7d</tool_call>"),
                   tool_calls := none, finish_reason := some (lit "stop") }]
    (by intro i hi; simp at hi; subst hi; rfl)).1

theorem runChunks_body (ids : Nat → Str) :
    ∀ (inputs : List Input) (state : StreamingState) (k : Nat),
    (runChunks ids inputs state k).events.all isBodyEv = true := by
  intro inputs
  induction inputs with
  | nil => intro state k; rfl
  | cons i rest ih =>
    intro state k
    cases i with
    | fault m => rfl
    | chunk c =>
      simp only [runChunks]
      split
      · exact processChunk_body ids k c state
      · simp only [List.all_append]
        rw [processChunk_body ids k c state, ih]
        rfl

theorem all_body_no_done (l : List Event) (h : l.all isBodyEv = true) :
    Event.done ∉ l := by
  intro hm
  have := List.all_eq_true.mp h _ hm
  simp [isBodyEv] at this

theorem all_body_no_error (l : List Event) (h : l.all isBodyEv = true) (m : Str) :
    Event.error m ∉ l := by
  intro hm
  have := List.all_eq_true.mp h _ hm
  simp [isBodyEv] at this

/-- C9: every session's frame list ends with the `[DONE]` sentinel, which
occurs only there; and when an internal fault aborts processing, the
output is exactly the events already emitted before the fault — none
retracted — followed by exactly one error frame and then the sentinel. -/
theorem C9_done_sentinel (ids : Nat → Str) (inputs : List Input) :
    (∃ pre, build_streaming_generator ids inputs = pre ++ [Event.done]
        ∧ Event.done ∉ pre)
    ∧ (∀ m, (runChunks ids inputs initState 0).fault = some m →
        build_streaming_generator ids inputs
          = (runChunks ids inputs initState 0).events
            ++ [Event.error (lit "Internal proxy error during stream: " ++ m), Event.done]
        ∧ (∀ m2, Event.error m2 ∉ (runChunks ids inputs initState 0).events)) := by
  have hbody := runChunks_body ids inputs initState 0
  constructor
  · simp only [build_streaming_generator]
    split
    · rename_i m hm
      refine ⟨(runChunks ids inputs initState 0).events
          ++ [Event.error (lit "Internal proxy error during stream: " ++ m)], ?_, ?_⟩
      · rw [List.append_assoc]
        rfl
      · intro hmem
        rcases List.mem_append.mp hmem with h1 | h2
        · exact all_body_no_done _ hbody h1
        · simp at h2
    · exact ⟨(runChunks ids inputs initState 0).events, rfl,
        all_body_no_done _ hbody⟩
  · intro m hm
    constructor
    · simp only [build_streaming_generator, hm]
    · intro m2
      exact all_body_no_error _ hbody m2

/-- Witness for C9: a session aborted by a fault still ends with the
sentinel, preceded by exactly one error frame. -/
theorem C9_done_sentinel_witness :
    build_streaming_generator defaultIds [Input.fault (lit "boom")]
      = [Event.error (lit "Internal proxy error during stream: " ++ lit "boom"),
         Event.done] := by
  have h := ((C9_done_sentinel defaultIds [Input.fault (lit "boom")]).2
    (lit "boom") rfl).1
  rw [h]
  rfl

/-- Witness for the amended C7: a native delta with upstream index `4`
arriving mid-session is re-emitted unmodified. -/
theorem C7_native_passthrough_amended_witness :
    (processChunk defaultIds 2
        { role := none, content := none,
          tool_calls := some [{ index := some 4, id := none,
                                name := some (lit "g"), arguments := none }],
          finish_reason := none } initState).1
      = [Event.native [{ index := some 4, id := none,
                         name := some (lit "g"), arguments := none }]] :=
  (C7_native_passthrough_amended defaultIds 2
    { role := none, content := none,
      tool_calls := some [{ index := some 4, id := none,
                            name := some (lit "g"), arguments := none }],
      finish_reason := none } initState
    [{ index := some 4, id := none, name := some (lit "g"), arguments := none }]
    rfl (by simp)).1

theorem parse_and_clean_content_cleaned (oc : Option Str) :
    (ContentParser.parse_and_clean_content oc).cleaned_content = none
    ∨ ∃ t, (ContentParser.parse_and_clean_content oc).cleaned_content = some t
        ∧ t ≠ [] := by
  unfold ContentParser.parse_and_clean_content
  cases oc with
  | none => exact Or.inl rfl
  | some s =>
    simp only
    split
    · exact Or.inl rfl
    · rename_i hne
      rw [Bool.not_eq_true] at hne
      exact Or.inr ⟨_, rfl, List.isEmpty_eq_false.mp hne⟩

/-- C10: in the non-streaming path, whenever at least one `<tool_call>`
block parses from the message content, the response's finish reason is
forced to `tool_calls` regardless of the upstream reason, and the message
content is null exactly when the cleaned content is empty; when no
tag-derived tool call parses but native tool calls exist, the upstream
finish reason is passed through unchanged. -/
theorem C10_non_streaming_finish (oc : Option Str) (r : Str)
    (mrole : Option Str) (mtc : Option (List NativeTC)) :
    ((ContentParser.parse_and_clean_content oc).parsed_tool_calls ≠ [] →
      (process_non_streaming_response oc r mrole mtc).finish_reason = lit "tool_calls"
      ∧ ((process_non_streaming_response oc r mrole mtc).content = none
          ↔ (ContentParser.parse_and_clean_content oc).cleaned_content = none))
    ∧ ((ContentParser.parse_and_clean_content oc).parsed_tool_calls = [] →
        truthyTC mtc = true →
        (process_non_streaming_response oc r mrole mtc).finish_reason = r) := by
  constructor
  · intro hne
    have hempty : (ContentParser.parse_and_clean_content oc).parsed_tool_calls.isEmpty
        = false := List.isEmpty_eq_false.mpr hne
    constructor
    · simp [process_non_streaming_response, hempty]
    · rcases parse_and_clean_content_cleaned oc with hc | ⟨t, hc, htne⟩
      · simp [process_non_streaming_response, hempty, hc, truthyOS]
      · simp [process_non_streaming_response, hempty, hc, truthyOS,
              List.isEmpty_eq_false.mpr htne]
  · intro he htc
    simp [process_non_streaming_response, he, htc]

/-- Witness for C10: a message whose content is one well-formed tool-call
block forces `tool_calls` even over the upstream reason `length`, and a
message with only native tool calls keeps the upstream reason `stop`. -/
theorem C10_non_streaming_finish_witness :
    (process_non_streaming_response
        (some (lit "<tool_call>\x7b\"name\":\"f\",\"arguments\":\x7b\x7d\x7d</tool_call>"))
        (lit "length") none none).finish_reason = lit "tool_calls"
    ∧ (process_non_streaming_response (some (lit "hi")) (lit "stop") none
        (some [{ index := some 0, id := none, name := none,
                 arguments := none }])).finish_reason = lit "stop" :=
  ⟨((C10_non_streaming_finish
      (some (lit "<tool_call>\x7b\"name\":\"f\",\"arguments\":\x7b\x7d\x7d</tool_call>"))
      (lit "length") none none).1 (by decide)).1,
   (C10_non_streaming_finish (some (lit "hi")) (lit "stop") none
      (some [{ index := some 0, id := none, name := none,
               arguments := none }])).2 (by decide) rfl⟩
